import Mathlib

/-!
Verification of the finance-bot record store, aggregation engine,
conversation state machine and scheduler (src/Bot777.py) against its
natural-language specification.

Modelling conventions (shallow embedding):

* Python `float` amounts are modelled as exact rationals `ℚ`; `float()`
  applied to a number already stored in the sheet is the identity.
* Python's `sum(...)` over a generator is a left fold from `0` (`pySum`).
* `hashlib.md5` is modelled as an injective function of its input, so a
  record id is represented by the hash-input string itself
  (`get_record_id`).
* Date strings use the fixed `YYYY-MM-DD HH:MM:SS` format.  `strptime`
  with that format is modelled by `parseDT`, which accepts exactly the
  canonical zero-padded form (CPython's `strptime` additionally tolerates
  non-zero-padded month/day/hour fields; the bot itself only ever writes
  canonical strings via `strftime`).  `parseDT` validates calendar ranges
  including the month length, as `datetime.strptime` does.
* The Google-Sheets service is modelled as an in-memory store (`Sheets`)
  that returns exactly the rows appended to it.  A raised exception of
  `append_row` is modelled by the boolean parameter `ok := false` of
  `save_record_to_sheet`; the Python function catches that exception and
  returns normally, which the model reflects by returning the unchanged
  store with no error signal.
* `list.sort(key=...)` (Timsort, stable) is modelled by the stable
  `List.insertionSort`; both compute the unique stable ascending
  reordering by the key.
* `pyFloatRepr` models `f"{x}"` for a Python float exactly on
  integer-valued amounts (the only ones used in concrete statements);
  non-integral values are abstracted by a normalised fraction rendering.
-/

/-- A wall-clock instant at second precision, mirroring the
`datetime.datetime` values the bot manipulates (microseconds are never
relevant: the bot formats with second precision). -/
structure DateTime where
  year : Nat
  month : Nat
  day : Nat
  hour : Nat
  minute : Nat
  second : Nat
deriving DecidableEq, Repr

/-- Gregorian leap-year test, as `datetime` implements it. -/
def isLeapYear (y : Nat) : Bool :=
  y % 4 = 0 && (y % 100 ≠ 0 || y % 400 = 0)

/-- Number of days in a month, as `datetime` validates it. -/
def daysInMonth (y m : Nat) : Nat :=
  if m = 2 then (if isLeapYear y then 29 else 28)
  else if m = 4 ∨ m = 6 ∨ m = 9 ∨ m = 11 then 30
  else 31

/-- Validity of a `DateTime`: the ranges `datetime.datetime` accepts,
restricted to four-digit years (the `%Y` directive of the fixed format). -/
def validDT (dt : DateTime) : Prop :=
  1 ≤ dt.year ∧ dt.year ≤ 9999 ∧ 1 ≤ dt.month ∧ dt.month ≤ 12 ∧
  1 ≤ dt.day ∧ dt.day ≤ daysInMonth dt.year dt.month ∧
  dt.hour ≤ 23 ∧ dt.minute ≤ 59 ∧ dt.second ≤ 59

instance (dt : DateTime) : Decidable (validDT dt) := by
  unfold validDT; infer_instance

/-- The decimal digit character for `n % 10`. -/
def digitChar (n : Nat) : Char :=
  match n % 10 with
  | 0 => '0' | 1 => '1' | 2 => '2' | 3 => '3' | 4 => '4'
  | 5 => '5' | 6 => '6' | 7 => '7' | 8 => '8' | _ => '9'

/-- Numeric value of a digit character. -/
def digitVal (c : Char) : Nat := c.toNat - 48

/-- Two-digit zero-padded rendering, as `strftime` pads `%m`, `%d`, `%H`,
`%M`, `%S`. -/
def pad2 (n : Nat) : List Char := [digitChar (n / 10 % 10), digitChar (n % 10)]

/-- Four-digit zero-padded rendering, as `strftime` pads `%Y`. -/
def pad4 (n : Nat) : List Char :=
  [digitChar (n / 1000 % 10), digitChar (n / 100 % 10),
   digitChar (n / 10 % 10), digitChar (n % 10)]

/-- Characters of the `%Y-%m-%d` day part of a formatted instant. -/
def dayChars (dt : DateTime) : List Char :=
  pad4 dt.year ++ '-' :: (pad2 dt.month ++ '-' :: pad2 dt.day)

/-- Characters of the `%H:%M:%S` time part of a formatted instant. -/
def timeChars (dt : DateTime) : List Char :=
  pad2 dt.hour ++ ':' :: (pad2 dt.minute ++ ':' :: pad2 dt.second)

/-- The full `strftime("%Y-%m-%d %H:%M:%S")` rendering. -/
def dateChars (dt : DateTime) : List Char :=
  dayChars dt ++ ' ' :: timeChars dt

/-- String form of `strftime("%Y-%m-%d %H:%M:%S")`. -/
def dateStr (dt : DateTime) : String := ⟨dateChars dt⟩

/-- String form of `strftime("%Y-%m-%d")`, the `today_str` prefix used by
the daily summary. -/
def dayStr (dt : DateTime) : String := ⟨dayChars dt⟩

/-- Model of `datetime.strptime(s, "%Y-%m-%d %H:%M:%S")`, returning
`none` where Python raises `ValueError`.  Accepts the canonical
zero-padded rendering and validates all calendar ranges. -/
def parseDT (s : String) : Option DateTime :=
  match s.data with
  | [y1, y2, y3, y4, h1, m1, m2, h2, a1, a2, sp,
     t1, t2, c1, n1, n2, c2, e1, e2] =>
    if y1.isDigit && y2.isDigit && y3.isDigit && y4.isDigit &&
       h1 == '-' && m1.isDigit && m2.isDigit && h2 == '-' &&
       a1.isDigit && a2.isDigit && sp == ' ' &&
       t1.isDigit && t2.isDigit && c1 == ':' &&
       n1.isDigit && n2.isDigit && c2 == ':' &&
       e1.isDigit && e2.isDigit then
      let y := ((digitVal y1 * 10 + digitVal y2) * 10 + digitVal y3) * 10 + digitVal y4
      let mo := digitVal m1 * 10 + digitVal m2
      let da := digitVal a1 * 10 + digitVal a2
      let ho := digitVal t1 * 10 + digitVal t2
      let mi := digitVal n1 * 10 + digitVal n2
      let se := digitVal e1 * 10 + digitVal e2
      if 1 ≤ y ∧ 1 ≤ mo ∧ mo ≤ 12 ∧ 1 ≤ da ∧ da ≤ daysInMonth y mo ∧
         ho ≤ 23 ∧ mi ≤ 59 ∧ se ≤ 59 then
        some ⟨y, mo, da, ho, mi, se⟩
      else none
    else none
  | _ => none

/-- Order-embedding of an instant into `Nat`; on valid instants (all
fields within range) the order of `dtNat` is chronological order, the
order `datetime` comparison uses. -/
def dtNat (dt : DateTime) : Nat :=
  ((((dt.year * 100 + dt.month) * 100 + dt.day) * 100 + dt.hour) * 100 +
    dt.minute) * 100 + dt.second

/-- Model of `f"{x}"` for a Python float: exact for integer-valued
floats (`1000.0` renders as `"1000.0"`); non-integral values are
abstracted by a fraction rendering (the shortest-round-trip repr of
binary64 is not modelled; no statement below depends on that case beyond
`pyFloatRepr` being a function). -/
def pyFloatRepr (q : ℚ) : String :=
  if q.den = 1 then
    (if q.num < 0 then "-" ++ Nat.repr q.num.natAbs else Nat.repr q.num.natAbs)
      ++ ".0"
  else
    (if q.num < 0 then "-" else "") ++ Nat.repr q.num.natAbs ++ "/" ++
      Nat.repr q.den

/-- Python's `sum(...)` over the listed values: a left fold from `0`. -/
def pySum (l : List ℚ) : ℚ := l.foldl (· + ·) 0

/-- Python's `str.startswith`: the argument equals the prefix of the
receiver of the same length. -/
def pyStartsWith (s p : String) : Bool :=
  decide (s.data.take p.data.length = p.data)

/-- Whitespace characters recognised by `str.strip`/`str.split` (the
ASCII ones; exotic unicode whitespace is not modelled). -/
def pyIsSpace (c : Char) : Bool :=
  c == ' ' || c == '\t' || c == '\n' || c == '\r' ||
  c == Char.ofNat 11 || c == Char.ofNat 12

/-- Python's `str.strip()`. -/
def pyStrip (s : String) : String :=
  ⟨((s.data.dropWhile pyIsSpace).reverse.dropWhile pyIsSpace).reverse⟩

/-- Python's `str.split(maxsplit=1)`: split on the first whitespace run;
an all-whitespace or empty string yields `[]`. -/
def pySplitMax1 (s : String) : List String :=
  let cs := s.data.dropWhile pyIsSpace
  if cs = [] then []
  else
    let tok := cs.takeWhile (fun c => !pyIsSpace c)
    let rest := (cs.drop tok.length).dropWhile pyIsSpace
    if rest = [] then [⟨tok⟩] else [⟨tok⟩, ⟨rest⟩]

/-- Numeric value of a digit string. -/
def digitsVal (l : List Char) : Nat :=
  l.foldl (fun acc c => acc * 10 + digitVal c) 0

/-- Model of Python `float(str)` restricted to fixed-point decimals
`[+-]digits[.digits]` (Python additionally accepts exponents,
`inf`/`nan` and `_` separators, none of which the claims exercise).
Returns `none` where `float` raises `ValueError`. -/
def parseFloat (s : String) : Option ℚ :=
  let cs := s.data
  let signAndRest : Bool × List Char :=
    match cs with
    | '-' :: t => (true, t)
    | '+' :: t => (false, t)
    | t => (false, t)
  let neg := signAndRest.1
  let body := signAndRest.2
  let ip := body.takeWhile Char.isDigit
  let rest := body.drop ip.length
  let val? : Option ℚ :=
    match rest with
    | [] => if ip = [] then none else some ((digitsVal ip : ℚ))
    | '.' :: frac =>
      if frac.all Char.isDigit ∧ (ip ≠ [] ∨ frac ≠ []) then
        some ((digitsVal ip : ℚ) + (digitsVal frac : ℚ) / ((10 : ℚ) ^ frac.length))
      else none
    | _ => none
  match val? with
  | none => none
  | some v => some (if neg then -v else v)

/-- One financial record as the bot stores it in `records`: the dict
`{date, type, category, amount, comment}` (the derived `id` key is a
function of these five fields and is not stored separately). -/
structure Record where
  date : String
  type : String
  category : String
  amount : ℚ
  comment : String
deriving DecidableEq, Repr

/-- One row of an income/expense worksheet: `(date, category, amount,
comment)`, as written by `append_row` and read by `get_all_records`. -/
structure SheetRow where
  date : String
  category : String
  amount : ℚ
  comment : String
deriving DecidableEq, Repr

/-- The external spreadsheet store: the income and expense worksheets,
modelled as the exact lists of rows appended to them. -/
structure Sheets where
  income : List SheetRow
  expense : List SheetRow
deriving DecidableEq, Repr

/-- The store with no rows. -/
def emptySheets : Sheets := ⟨[], []⟩

/-- Embedding of `get_record_id`: the md5 hash of
`f"{date}-{type}-{category}-{amount}-{comment}"`.  md5 is modelled as
injective, so the id is represented by the hash-input string itself. -/
def get_record_id (r : Record) : String :=
  r.date ++ "-" ++ r.type ++ "-" ++ r.category ++ "-" ++
    pyFloatRepr r.amount ++ "-" ++ r.comment

/-- Sort key used by `records.sort(key=lambda r: strptime(r["date"]))`:
the parsed timestamp (all records produced by `load_records` and
`save_record` carry parseable dates; the default value mirrors nothing
observable). -/
def recKey (r : Record) : Nat :=
  dtNat ((parseDT r.date).getD ⟨1, 1, 1, 0, 0, 0⟩)

/-- Ascending-timestamp comparison between records. -/
def recLe (a b : Record) : Prop := recKey a ≤ recKey b

instance : DecidableRel recLe := fun a b =>
  inferInstanceAs (Decidable (recKey a ≤ recKey b))

instance : IsTotal Record recLe := ⟨fun a b => Nat.le_total (recKey a) (recKey b)⟩

instance : IsTrans Record recLe := ⟨fun _ _ _ hab hbc => Nat.le_trans hab hbc⟩

/-- Embedding of `records.sort(key=lambda r: strptime(r["date"]))`: the
stable ascending sort by parsed timestamp. -/
def sortRecords (rs : List Record) : List Record :=
  List.insertionSort recLe rs

/-- Row-to-record parsing step of `load_records`: skip the row when the
`date` or `amount` field is falsy (empty string, respectively `0`) or
when the date fails `strptime`; otherwise build the record dict with the
worksheet's transaction type. -/
def rowToRecord (ty : String) (row : SheetRow) : Option Record :=
  if row.date = "" ∨ row.amount = 0 then none
  else
    match parseDT row.date with
    | none => none
    | some _ => some ⟨row.date, ty, row.category, row.amount, row.comment⟩

/-- Embedding of `load_records`: parse the income sheet with type
`доход`, then the expense sheet with type `расход`, concatenate and sort
ascending by timestamp.  (Rows whose amount is a non-numeric string are
skipped by Python's `float`; amounts are modelled as numbers, so that
skip has no counterpart here.) -/
def load_records (S : Sheets) : List Record :=
  sortRecords
    ((S.income.filterMap (rowToRecord ("доход"))) ++
     (S.expense.filterMap (rowToRecord ("расход"))))

/-- Embedding of `save_record_to_sheet`: append the row
`[date, category, amount, comment]` to the worksheet selected by the
record's type.  `ok := false` models `append_row` raising; the Python
function catches that exception, logs, and returns normally, so the
model returns the unchanged store and signals nothing to the caller. -/
def save_record_to_sheet (ok : Bool) (S : Sheets) (r : Record) : Sheets :=
  if ok then
    if r.type = "доход" then
      { S with income := S.income ++ [⟨r.date, r.category, r.amount, r.comment⟩] }
    else
      { S with expense := S.expense ++ [⟨r.date, r.category, r.amount, r.comment⟩] }
  else S

/-- Embedding of `save_record`: reject when an existing record has the
same id; otherwise call the external append (which never raises to this
caller, see `save_record_to_sheet`), append in-memory, sort, and return
`True`.  The `except` branch of the Python function that would return
`False` on a sheet failure is unreachable, because
`save_record_to_sheet` swallows its exceptions. -/
def save_record (ok : Bool) (rs : List Record) (S : Sheets) (r : Record) :
    Bool × List Record × Sheets :=
  if rs.any (fun x => get_record_id x == get_record_id r) then (false, rs, S)
  else
    let S' := save_record_to_sheet ok S r
    (true, sortRecords (rs ++ [r]), S')

/-- Embedding of `get_current_balance`: overall income sum minus overall
expense sum. -/
def get_current_balance (rs : List Record) : ℚ :=
  pySum ((rs.filter (fun r => r.type == "доход")).map (fun r => r.amount)) -
  pySum ((rs.filter (fun r => r.type == "расход")).map (fun r => r.amount))

/-- One `+=` step of the per-category accumulation loop of
`generate_chart`. -/
def chartStep (p : (String → ℚ) × (String → ℚ)) (r : Record) :
    (String → ℚ) × (String → ℚ) :=
  if r.type = "доход" then
    (fun c => if c = r.category then p.1 c + r.amount else p.1 c, p.2)
  else if r.type = "расход" then
    (p.1, fun c => if c = r.category then p.2 c + r.amount else p.2 c)
  else p

/-- The `income_by_cat`/`expense_by_cat` dicts of `generate_chart`,
modelled as total functions that are `0` outside the touched keys (the
real dicts are initialised to `0` exactly on the observed categories,
which contain every key the loop touches). -/
def chartMaps (rs : List Record) : (String → ℚ) × (String → ℚ) :=
  rs.foldl chartStep (fun _ => 0, fun _ => 0)

/-- The `categories` list of `generate_chart`:
`sorted(list({r["category"] for r in period_records}))`. -/
def chartCategories (rs : List Record) : List String :=
  List.insertionSort (fun a b => a ≤ b) ((rs.map (fun r => r.category)).dedup)

/-- Embedding of the data side of `generate_chart`: the sorted category
axis and the two parallel value lists handed to the bar renderer. -/
def generate_chart (rs : List Record) : List String × List ℚ × List ℚ :=
  let cats := chartCategories rs
  let m := chartMaps rs
  (cats, cats.map m.1, cats.map m.2)

/-- The `daily` filter of `generate_daily_summary`:
`r["date"].startswith(today_str)`. -/
def dailyFilter (now : DateTime) (rs : List Record) : List Record :=
  rs.filter (fun r => pyStartsWith r.date (dayStr now))

/-- Content of the daily text report: the itemised income and expense
lines and the three totals (the surrounding emoji/localised template
text carries no data). -/
structure DailySummary where
  incomes : List Record
  expenses : List Record
  totalIncome : ℚ
  totalExpense : ℚ
  balanceDay : ℚ
deriving DecidableEq, Repr

/-- Embedding of `generate_daily_summary`, parameterised by the current
instant (`datetime.now()`). -/
def generate_daily_summary (now : DateTime) (rs : List Record) : DailySummary :=
  let daily := dailyFilter now rs
  let incomes := daily.filter (fun r => r.type == "доход")
  let expenses := daily.filter (fun r => r.type == "расход")
  let ti := pySum (incomes.map (fun r => r.amount))
  let te := pySum (expenses.map (fun r => r.amount))
  ⟨incomes, expenses, ti, te, ti - te⟩

/-- The four aggregate rows `update_balance_sheet` writes to the
`Баланс` worksheet (row 1 carries only the overall balance). -/
structure BalanceRows where
  overallBalance : ℚ
  weeklyIncome : ℚ
  weeklyExpense : ℚ
  weeklyBalance : ℚ
  monthlyIncome : ℚ
  monthlyExpense : ℚ
  monthlyBalance : ℚ
  yearlyIncome : ℚ
  yearlyExpense : ℚ
  yearlyBalance : ℚ
deriving DecidableEq, Repr

/-- Parsed timestamp of a record, as the window filters compute it. -/
def recDT (r : Record) : DateTime := (parseDT r.date).getD ⟨1, 1, 1, 0, 0, 0⟩

/-- Embedding of `update_balance_sheet`, parameterised by the current
instant and by `week_ago = now - timedelta(days=7)` (the calendar
subtraction is performed by the `datetime` library and is supplied here
as a parameter; the claims under verification do not depend on it). -/
def update_balance_sheet (now weekAgo : DateTime) (rs : List Record) : BalanceRows :=
  let overall_income :=
    pySum ((rs.filter (fun r => r.type == "доход")).map (fun r => r.amount))
  let overall_expense :=
    pySum ((rs.filter (fun r => r.type == "расход")).map (fun r => r.amount))
  let weekly_income :=
    pySum ((rs.filter (fun r =>
      r.type == "доход" && decide (dtNat weekAgo ≤ dtNat (recDT r)))).map (fun r => r.amount))
  let weekly_expense :=
    pySum ((rs.filter (fun r =>
      r.type == "расход" && decide (dtNat weekAgo ≤ dtNat (recDT r)))).map (fun r => r.amount))
  let monthly_income :=
    pySum ((rs.filter (fun r =>
      r.type == "доход" && (recDT r).year == now.year &&
        (recDT r).month == now.month)).map (fun r => r.amount))
  let monthly_expense :=
    pySum ((rs.filter (fun r =>
      r.type == "расход" && (recDT r).year == now.year &&
        (recDT r).month == now.month)).map (fun r => r.amount))
  let yearly_income :=
    pySum ((rs.filter (fun r =>
      r.type == "доход" && (recDT r).year == now.year)).map (fun r => r.amount))
  let yearly_expense :=
    pySum ((rs.filter (fun r =>
      r.type == "расход" && (recDT r).year == now.year)).map (fun r => r.amount))
  ⟨overall_income - overall_expense,
   weekly_income, weekly_expense, weekly_income - weekly_expense,
   monthly_income, monthly_expense, monthly_income - monthly_expense,
   yearly_income, yearly_expense, yearly_income - yearly_expense⟩

/-- The next-fire-time computation of `monthly_summary_task`: on the 1st
before 10:00 target the same day at 10:00, otherwise the 1st of the
following month (rolling the year after December) at 10:00. -/
def monthly_next_target (now : DateTime) : DateTime :=
  if now.day = 1 ∧ now.hour < 10 then
    { now with hour := 10, minute := 0, second := 0 }
  else if now.month = 12 then ⟨now.year + 1, 1, 1, 10, 0, 0⟩
  else ⟨now.year, now.month + 1, 1, 10, 0, 0⟩

/-- The per-user pending input `{type, category}` created when a
category button is pressed. -/
structure Pending where
  type : String
  category : String
deriving DecidableEq, Repr

/-- The user-visible replies `process_manual_input` can send. -/
inductive Reply where
  | promptAmount
  | badFormat
  | savedNotice
  | duplicateNotice
deriving DecidableEq, Repr

/-- Observable outcome of one `process_manual_input` invocation: the
reply sent, the user's pending entry afterwards (`none` means the
pending input was deleted, i.e. the user is back to Idle), the record
collection and sheet store afterwards, and the entry added to the
collection, if any. -/
structure MIResult where
  reply : Reply
  pending : Option Pending
  records : List Record
  sheets : Sheets
  created : Option Record
deriving DecidableEq, Repr

/-- Embedding of `process_manual_input` for one user currently in state
`CategoryChosen` (the aiogram handler only fires for users present in
`pending_inputs`, whose stored dicts are always truthy).  `nowStr` is
`datetime.now().strftime("%Y-%m-%d %H:%M:%S")`; `ok` is the
sheet-append success flag passed through to `save_record`.  Note that
the two early-return branches leave the pending entry in place: only
the two post-parse branches reach `del pending_inputs[user_id]`. -/
def process_manual_input (nowStr : String) (p : Pending) (rs : List Record)
    (S : Sheets) (ok : Bool) (text : String) : MIResult :=
  match pySplitMax1 (pyStrip text) with
  | [] => ⟨Reply.promptAmount, some p, rs, S, none⟩
  | tok :: rest =>
    match parseFloat tok with
    | none => ⟨Reply.badFormat, some p, rs, S, none⟩
    | some amt =>
      let comment := rest.headD ""
      let record : Record := ⟨nowStr, p.type, p.category, amt, comment⟩
      let res := save_record ok rs S record
      if res.1 then ⟨Reply.savedNotice, none, res.2.1, res.2.2, some record⟩
      else ⟨Reply.duplicateNotice, none, res.2.1, res.2.2, none⟩

/-- A structured financial entry as the specification's data model
presents it: a timestamp (at second precision) plus the four payload
fields.  `mkRecord` renders it into the string-dated dict the program
stores; the pair is used to state window-filter claims against the
specification's timestamp view. -/
structure Entry where
  dt : DateTime
  type : String
  category : String
  amount : ℚ
  comment : String
deriving DecidableEq, Repr

/-- Render a structured entry into the stored record dict, with the
canonical `strftime` date string. -/
def mkRecord (e : Entry) : Record :=
  ⟨dateStr e.dt, e.type, e.category, e.amount, e.comment⟩

/-- Same calendar day: the specification's notion of an instant falling
within the current day. -/
def sameDay (a b : DateTime) : Bool :=
  a.year == b.year && a.month == b.month && a.day == b.day

example : dateStr ⟨2024, 1, 1, 9, 0, 0⟩ = "2024-01-01 09:00:00" := by decide

example : parseDT ("2024-01-01 09:00:00") = some ⟨2024, 1, 1, 9, 0, 0⟩ := by decide

example : parseFloat ("500") = some (500 : ℚ) := by decide

example : parseFloat ("abc") = none := by decide

example : pySplitMax1 ("100  lunch and tea") = ["100", "lunch and tea"] := by decide

/-! ### Helper lemmas about the date rendering and parsing -/

theorem digitChar_isDigit (n : Nat) : (digitChar n).isDigit = true := by
  unfold digitChar
  have h : n % 10 < 10 := Nat.mod_lt _ (by omega)
  revert h
  generalize n % 10 = k
  intro h
  interval_cases k <;> rfl

theorem digitVal_digitChar (n : Nat) : digitVal (digitChar n) = n % 10 := by
  unfold digitChar
  have h : n % 10 < 10 := Nat.mod_lt _ (by omega)
  revert h
  generalize n % 10 = k
  intro h
  interval_cases k <;> rfl

theorem dayChars_length (dt : DateTime) : (dayChars dt).length = 10 := rfl

theorem daysInMonth_le_31 (y m : Nat) : daysInMonth y m ≤ 31 := by
  unfold daysInMonth
  split <;> [split <;> omega; split <;> omega]

theorem dayChars_eq_iff {a b : DateTime}
    (hay : a.year ≤ 9999) (ham : a.month ≤ 99) (had : a.day ≤ 99)
    (hby : b.year ≤ 9999) (hbm : b.month ≤ 99) (hbd : b.day ≤ 99) :
    dayChars a = dayChars b ↔
      (a.year = b.year ∧ a.month = b.month ∧ a.day = b.day) := by
  constructor
  · intro h
    unfold dayChars pad4 pad2 at h
    simp only [List.cons_append, List.nil_append, List.cons.injEq,
      eq_self_iff_true, and_true, true_and] at h
    obtain ⟨e1, e2, e3, e4, e5, e6, e7, e8⟩ := h
    have v1 := congrArg digitVal e1
    have v2 := congrArg digitVal e2
    have v3 := congrArg digitVal e3
    have v4 := congrArg digitVal e4
    have v5 := congrArg digitVal e5
    have v6 := congrArg digitVal e6
    have v7 := congrArg digitVal e7
    have v8 := congrArg digitVal e8
    simp only [digitVal_digitChar] at v1 v2 v3 v4 v5 v6 v7 v8
    refine ⟨by omega, by omega, by omega⟩
  · intro ⟨h1, h2, h3⟩
    unfold dayChars
    rw [h1, h2, h3]

theorem pyStartsWith_day (a b : DateTime)
    (hay : a.year ≤ 9999) (ham : a.month ≤ 99) (had : a.day ≤ 99)
    (hby : b.year ≤ 9999) (hbm : b.month ≤ 99) (hbd : b.day ≤ 99) :
    pyStartsWith (dateStr a) (dayStr b) = true ↔
      (a.year = b.year ∧ a.month = b.month ∧ a.day = b.day) := by
  unfold pyStartsWith dateStr dayStr
  rw [decide_eq_true_eq]
  show (dateChars a).take (dayChars b).length = dayChars b ↔ _
  rw [dayChars_length b, dateChars, ← dayChars_length a, List.take_left]
  exact dayChars_eq_iff hay ham had hby hbm hbd

theorem validDT_bounds {dt : DateTime} (h : validDT dt) :
    dt.year ≤ 9999 ∧ dt.month ≤ 99 ∧ dt.day ≤ 99 := by
  obtain ⟨-, h2, -, h4, -, h6, -⟩ := h
  have := daysInMonth_le_31 dt.year dt.month
  omega

theorem parseDT_dateStr {dt : DateTime} (h : validDT dt) :
    parseDT (dateStr dt) = some dt := by
  obtain ⟨h1, h2, h3, h4, h5, h6, h7, h8, h9⟩ := h
  have hy : ((dt.year / 1000 % 10 % 10 * 10 + dt.year / 100 % 10 % 10) * 10 +
      dt.year / 10 % 10 % 10) * 10 + dt.year % 10 % 10 = dt.year := by omega
  have hmo : dt.month / 10 % 10 % 10 * 10 + dt.month % 10 % 10 = dt.month := by
    have := daysInMonth_le_31 dt.year dt.month; omega
  have hda : dt.day / 10 % 10 % 10 * 10 + dt.day % 10 % 10 = dt.day := by
    have := daysInMonth_le_31 dt.year dt.month; omega
  have hho : dt.hour / 10 % 10 % 10 * 10 + dt.hour % 10 % 10 = dt.hour := by omega
  have hmi : dt.minute / 10 % 10 % 10 * 10 + dt.minute % 10 % 10 = dt.minute := by
    omega
  have hse : dt.second / 10 % 10 % 10 * 10 + dt.second % 10 % 10 = dt.second := by
    omega
  show parseDT ⟨dateChars dt⟩ = some dt
  unfold dateChars dayChars timeChars pad4 pad2
  unfold parseDT
  simp only [List.cons_append, List.nil_append]
  simp only [digitChar_isDigit, digitVal_digitChar, Bool.and_self, beq_self_eq_true,
    Bool.and_true, Bool.true_and, if_true]
  rw [hy, hmo, hda, hho, hmi, hse]
  rw [if_pos ⟨h1, h3, h4, h5, h6, h7, h8, h9⟩]

/-! ### Helper lemmas about summation -/

theorem foldl_add_shift (l : List ℚ) : ∀ x : ℚ, l.foldl (· + ·) x = x + l.foldl (· + ·) 0 := by
  induction l with
  | nil => intro x; simp
  | cons a l ih =>
    intro x
    simp only [List.foldl_cons]
    rw [ih (x + a), ih (0 + a)]
    ring

theorem pySum_cons (a : ℚ) (l : List ℚ) : pySum (a :: l) = a + pySum l := by
  unfold pySum
  simp only [List.foldl_cons]
  rw [foldl_add_shift l (0 + a), zero_add]

theorem pySum_eq_sum (l : List ℚ) : pySum l = l.sum := by
  induction l with
  | nil => rfl
  | cons a l ih => rw [pySum_cons, List.sum_cons, ih]

/-! ### Helper lemmas about sorting -/

theorem sorted_sortRecords (l : List Record) : List.Sorted recLe (sortRecords l) :=
  List.sorted_insertionSort recLe l

theorem perm_sortRecords (l : List Record) : List.Perm (sortRecords l) l :=
  List.perm_insertionSort recLe l

theorem mem_sortRecords {r : Record} {l : List Record} :
    r ∈ sortRecords l ↔ r ∈ l :=
  (perm_sortRecords l).mem_iff

theorem dateStr_ne_empty (dt : DateTime) : dateStr dt ≠ "" := by
  intro h
  have h2 : (dateStr dt).data = [] := by rw [h]
  unfold dateStr dateChars dayChars pad4 at h2
  simp at h2

/-! ### Helper lemma about the chart accumulation loop -/

theorem chartMaps_fold_spec (rs : List Record) : ∀ (i e : String → ℚ) (c : String),
    ((rs.foldl chartStep (i, e)).1 c =
      i c + pySum ((rs.filter (fun r => r.type == "доход" && r.category == c)).map
        (fun r => r.amount))) ∧
    ((rs.foldl chartStep (i, e)).2 c =
      e c + pySum ((rs.filter (fun r => r.type == "расход" && r.category == c)).map
        (fun r => r.amount))) := by
  induction rs with
  | nil => intro i e c; simp [pySum]
  | cons r rs ih =>
    intro i e c
    simp only [List.foldl_cons, List.filter_cons]
    rcases eq_or_ne r.type ("доход") with ht | ht
    · have hne : (r.type == "расход") = false := by
        rw [ht]; decide
      have hd : (r.type == "доход") = true := by
        rw [ht]; decide
      have hstep : chartStep (i, e) r =
          (fun c' => if c' = r.category then i c' + r.amount else i c', e) := by
        simp [chartStep, ht]
      rw [hstep, hd, hne]
      simp only [Bool.true_and, Bool.false_and, Bool.false_eq_true, if_false]
      rcases eq_or_ne c r.category with hc | hc
      · have hcb : (r.category == c) = true := by
          rw [hc]; exact beq_self_eq_true _
        rw [hcb]
        simp only [if_true, List.map_cons]
        obtain ⟨ih1, ih2⟩ := ih (fun c' => if c' = r.category then i c' + r.amount else i c') e c
        refine ⟨?_, ih2⟩
        rw [ih1, if_pos hc, pySum_cons]
        ring
      · have hcb : (r.category == c) = false := by
          simp [beq_eq_false_iff_ne]
          exact fun hx => hc hx.symm
        rw [hcb]
        simp only [Bool.false_eq_true, if_false]
        obtain ⟨ih1, ih2⟩ := ih (fun c' => if c' = r.category then i c' + r.amount else i c') e c
        refine ⟨?_, ih2⟩
        rw [ih1, if_neg hc]
    · have hne : (r.type == "доход") = false := by
        simp [beq_eq_false_iff_ne, ht]
      rw [hne]
      simp only [Bool.false_and, Bool.false_eq_true, if_false]
      rcases eq_or_ne r.type ("расход") with ht2 | ht2
      · have hr : (r.type == "расход") = true := by
          rw [ht2]; decide
        have hstep : chartStep (i, e) r =
            (i, fun c' => if c' = r.category then e c' + r.amount else e c') := by
          simp [chartStep, ht, ht2]
        rw [hstep, hr]
        simp only [Bool.true_and]
        rcases eq_or_ne c r.category with hc | hc
        · have hcb : (r.category == c) = true := by
            rw [hc]; exact beq_self_eq_true _
          rw [hcb]
          simp only [if_true, List.map_cons]
          obtain ⟨ih1, ih2⟩ :=
            ih i (fun c' => if c' = r.category then e c' + r.amount else e c') c
          refine ⟨ih1, ?_⟩
          rw [ih2, if_pos hc, pySum_cons]
          ring
        · have hcb : (r.category == c) = false := by
            simp [beq_eq_false_iff_ne]
            exact fun hx => hc hx.symm
          rw [hcb]
          simp only [Bool.false_eq_true, if_false]
          obtain ⟨ih1, ih2⟩ :=
            ih i (fun c' => if c' = r.category then e c' + r.amount else e c') c
          refine ⟨ih1, ?_⟩
          rw [ih2, if_neg hc]
      · have hr : (r.type == "расход") = false := by
          simp [beq_eq_false_iff_ne, ht2]
        have hstep : chartStep (i, e) r = (i, e) := by
          simp [chartStep, ht, ht2]
        rw [hstep, hr]
        simp only [Bool.false_and, Bool.false_eq_true, if_false]
        exact ih i e c

/-! ### Claim theorems -/

/-- C1.  The claim states that when the external write-through append
fails, `save_record` returns `False` and leaves the in-memory collection
unchanged.  The code does the opposite: `save_record_to_sheet` catches
the sheet exception internally and returns normally, so `save_record`
(whose own `except`-branch returning `False` is therefore unreachable)
still appends the entry in-memory and returns `True`, while the external
store is left without the row — as the final conjunct shows, the entry
is then lost by the next refresh. -/
theorem c1_sheet_failure_swallowed :
    (save_record false [] emptySheets
      ⟨"2024-01-01 12:00:00", "доход", "Бизнес", 1, ""⟩).1 = true
  ∧ (save_record false [] emptySheets
      ⟨"2024-01-01 12:00:00", "доход", "Бизнес", 1, ""⟩).2.1 =
      [⟨"2024-01-01 12:00:00", "доход", "Бизнес", 1, ""⟩]
  ∧ (save_record false [] emptySheets
      ⟨"2024-01-01 12:00:00", "доход", "Бизнес", 1, ""⟩).2.2 = emptySheets
  ∧ load_records ((save_record false [] emptySheets
      ⟨"2024-01-01 12:00:00", "доход", "Бизнес", 1, ""⟩).2.2) = [] := by
  decide

/-- C3, counterexample.  The claim states that an entry differing from
every existing entry in at least one of the five fields is accepted.
The hyphen-joined hash input is ambiguous: the stored entry with
category `A-1.0`, amount `2.0`, comment `z` and the new entry with
category `A`, amount `1.0`, comment `2.0-z` produce the same identity
string, so the new entry is rejected although its category, amount and
comment all differ. -/
theorem c3_distinct_fields_rejected :
    ((⟨"2024-01-01 12:00:00", "доход", "A", 1, "2.0-z"⟩ : Record).category ≠
      (⟨"2024-01-01 12:00:00", "доход", "A-1.0", 2, "z"⟩ : Record).category)
  ∧ ((⟨"2024-01-01 12:00:00", "доход", "A", 1, "2.0-z"⟩ : Record).amount ≠
      (⟨"2024-01-01 12:00:00", "доход", "A-1.0", 2, "z"⟩ : Record).amount)
  ∧ ((⟨"2024-01-01 12:00:00", "доход", "A", 1, "2.0-z"⟩ : Record).comment ≠
      (⟨"2024-01-01 12:00:00", "доход", "A-1.0", 2, "z"⟩ : Record).comment)
  ∧ (save_record true [⟨"2024-01-01 12:00:00", "доход", "A-1.0", 2, "z"⟩]
      emptySheets ⟨"2024-01-01 12:00:00", "доход", "A", 1, "2.0-z"⟩).1 = false
  ∧ (save_record true [⟨"2024-01-01 12:00:00", "доход", "A-1.0", 2, "z"⟩]
      emptySheets ⟨"2024-01-01 12:00:00", "доход", "A", 1, "2.0-z"⟩).2.1 =
      [⟨"2024-01-01 12:00:00", "доход", "A-1.0", 2, "z"⟩]
  ∧ (save_record true [⟨"2024-01-01 12:00:00", "доход", "A-1.0", 2, "z"⟩]
      emptySheets ⟨"2024-01-01 12:00:00", "доход", "A", 1, "2.0-z"⟩).2.2 =
      emptySheets := by
  decide

/-- C3, amended.  An entry whose five fields all equal those of an
existing entry is rejected (`False`, collection and external store
unchanged); an entry is accepted exactly when no existing entry produces
the same hyphen-joined identity string
`date-type-category-amount-comment` — distinct field tuples can collide
on that string and are then rejected as duplicates. -/
theorem c3_dedup_by_identity_string :
    ∀ (ok : Bool) (rs : List Record) (S : Sheets) (e : Record),
    ((∃ r ∈ rs, r.date = e.date ∧ r.type = e.type ∧ r.category = e.category ∧
        r.amount = e.amount ∧ r.comment = e.comment) →
      save_record ok rs S e = (false, rs, S))
  ∧ ((∃ r ∈ rs, get_record_id r = get_record_id e) →
      save_record ok rs S e = (false, rs, S))
  ∧ ((∀ r ∈ rs, get_record_id r ≠ get_record_id e) →
      save_record ok rs S e =
        (true, sortRecords (rs ++ [e]), save_record_to_sheet ok S e)) := by
  intro ok rs S e
  have hdup : (∃ r ∈ rs, get_record_id r = get_record_id e) →
      save_record ok rs S e = (false, rs, S) := by
    intro ⟨r, hr, hid⟩
    have hany : rs.any (fun x => get_record_id x == get_record_id e) = true := by
      rw [List.any_eq_true]
      exact ⟨r, hr, by rw [hid]; exact beq_self_eq_true _⟩
    unfold save_record
    rw [if_pos hany]
  refine ⟨?_, hdup, ?_⟩
  · intro ⟨r, hr, h1, h2, h3, h4, h5⟩
    refine hdup ⟨r, hr, ?_⟩
    unfold get_record_id
    rw [h1, h2, h3, h4, h5]
  · intro h
    have hany : rs.any (fun x => get_record_id x == get_record_id e) = false := by
      rw [List.any_eq_false]
      intro r hr
      simp only [beq_iff_eq]
      exact h r hr
    unfold save_record
    rw [hany, if_neg Bool.false_ne_true]

/-- C3, witness for the amended claim: a concrete duplicate is rejected
with everything unchanged, and a concrete fresh entry is accepted. -/
theorem c3_dedup_witness :
    (save_record true [⟨"2024-01-01 12:00:00", "доход", "Бизнес", 7, "x"⟩]
      emptySheets ⟨"2024-01-01 12:00:00", "доход", "Бизнес", 7, "x"⟩ =
      (false, [⟨"2024-01-01 12:00:00", "доход", "Бизнес", 7, "x"⟩], emptySheets))
  ∧ (save_record true [⟨"2024-01-01 12:00:00", "доход", "Бизнес", 7, "x"⟩]
      emptySheets ⟨"2024-01-01 12:00:00", "доход", "Бизнес", 8, "x"⟩ =
      (true,
       sortRecords ([⟨"2024-01-01 12:00:00", "доход", "Бизнес", 7, "x"⟩] ++
         [⟨"2024-01-01 12:00:00", "доход", "Бизнес", 8, "x"⟩]),
       save_record_to_sheet true emptySheets
         ⟨"2024-01-01 12:00:00", "доход", "Бизнес", 8, "x"⟩)) :=
  ⟨(c3_dedup_by_identity_string true
      [⟨"2024-01-01 12:00:00", "доход", "Бизнес", 7, "x"⟩] emptySheets
      ⟨"2024-01-01 12:00:00", "доход", "Бизнес", 7, "x"⟩).1
      ⟨⟨"2024-01-01 12:00:00", "доход", "Бизнес", 7, "x"⟩, by decide,
        rfl, rfl, rfl, rfl, rfl⟩,
   (c3_dedup_by_identity_string true
      [⟨"2024-01-01 12:00:00", "доход", "Бизнес", 7, "x"⟩] emptySheets
      ⟨"2024-01-01 12:00:00", "доход", "Бизнес", 8, "x"⟩).2.2
      (by decide)⟩

/-- C9.  After a full refresh (`load_records`) and after a successful
append (`save_record` returning `True`) the in-memory record collection
is sorted ascending by its parsed timestamp. -/
theorem c9_sorted_after_mutation :
    (∀ S : Sheets, List.Sorted recLe (load_records S))
  ∧ (∀ (ok : Bool) (rs : List Record) (S : Sheets) (e : Record),
      (save_record ok rs S e).1 = true →
      List.Sorted recLe (save_record ok rs S e).2.1) := by
  constructor
  · intro S
    exact sorted_sortRecords _
  · intro ok rs S e h
    unfold save_record at h ⊢
    by_cases hany : rs.any (fun x => get_record_id x == get_record_id e) = true
    · rw [if_pos hany] at h
      simp at h
    · rw [if_neg hany]
      exact sorted_sortRecords _

/-- C9, witness: a concrete successful append yields a sorted
collection. -/
theorem c9_sorted_witness :
    (save_record true [] emptySheets
      ⟨"2024-01-01 12:00:00", "доход", "Бизнес", 1, ""⟩).1 = true
  ∧ List.Sorted recLe (save_record true [] emptySheets
      ⟨"2024-01-01 12:00:00", "доход", "Бизнес", 1, ""⟩).2.1 :=
  ⟨by decide,
   c9_sorted_after_mutation.2 true [] emptySheets
     ⟨"2024-01-01 12:00:00", "доход", "Бизнес", 1, ""⟩ (by decide)⟩

/-- C10.  During refresh every sheet row with a falsy amount (the number
`0`) is skipped, so no loaded record carries amount `0`; consequently an
entry with amount `0` appended through `save_record` does not survive
the next refresh: no record matching its five fields is ever loaded. -/
theorem c10_zero_amount_dropped :
    (∀ (S : Sheets) (r : Record), r ∈ load_records S → r.amount ≠ 0)
  ∧ (∀ (rs : List Record) (S : Sheets) (e : Record), e.amount = 0 →
      ∀ r ∈ load_records (save_record true rs S e).2.2,
        ¬(r.date = e.date ∧ r.type = e.type ∧ r.category = e.category ∧
          r.amount = e.amount ∧ r.comment = e.comment)) := by
  have h1 : ∀ (S : Sheets) (r : Record), r ∈ load_records S → r.amount ≠ 0 := by
    intro S r hr
    rw [load_records, mem_sortRecords, List.mem_append] at hr
    have key : ∀ (ty : String) (rows : List SheetRow),
        r ∈ rows.filterMap (rowToRecord ty) → r.amount ≠ 0 := by
      intro ty rows hmem
      rw [List.mem_filterMap] at hmem
      obtain ⟨row, _, heq⟩ := hmem
      unfold rowToRecord at heq
      by_cases hskip : row.date = "" ∨ row.amount = 0
      · rw [if_pos hskip] at heq
        exact absurd heq (by simp)
      · rw [if_neg hskip] at heq
        cases hp : parseDT row.date with
        | none => rw [hp] at heq; exact absurd heq (by simp)
        | some dt =>
          rw [hp] at heq
          obtain rfl := Option.some.inj heq
          intro hz
          exact hskip (Or.inr hz)
    rcases hr with hr | hr
    · exact key _ _ hr
    · exact key _ _ hr
  refine ⟨h1, ?_⟩
  rintro rs S e he r hr ⟨-, -, -, ham, -⟩
  exact h1 _ r hr (ham.trans he)

/-- C10, witness: loading after appending a zero-amount entry yields no
matching record (here, on the empty store, no record at all). -/
theorem c10_zero_amount_witness :
    ¬((⟨"2024-01-01 12:00:00", "доход", "Бизнес", 0, ""⟩ : Record) ∈
        load_records (save_record true [] emptySheets
          ⟨"2024-01-01 12:00:00", "доход", "Бизнес", 0, ""⟩).2.2) := by
  intro hmem
  exact c10_zero_amount_dropped.2 [] emptySheets
    ⟨"2024-01-01 12:00:00", "доход", "Бизнес", 0, ""⟩ rfl
    ⟨"2024-01-01 12:00:00", "доход", "Бизнес", 0, ""⟩ hmem
    ⟨rfl, rfl, rfl, rfl, rfl⟩

/-- C4.  The computed balance — overall (`get_current_balance`, and row 1
of the balance sheet) and per window (week, month, year rows) — equals
the sum of Income amounts minus the sum of Expense amounts of the
corresponding filtered set, exactly: the left-fold accumulation the code
performs coincides with the mathematical sum of the amounts, with no
drift. -/
theorem c4_balance_is_income_minus_expense :
    ∀ (rs : List Record) (now weekAgo : DateTime),
    get_current_balance rs =
        ((rs.filter (fun r => r.type == "доход")).map (fun r => r.amount)).sum -
        ((rs.filter (fun r => r.type == "расход")).map (fun r => r.amount)).sum
  ∧ (update_balance_sheet now weekAgo rs).overallBalance = get_current_balance rs
  ∧ (update_balance_sheet now weekAgo rs).weeklyBalance =
      (update_balance_sheet now weekAgo rs).weeklyIncome -
        (update_balance_sheet now weekAgo rs).weeklyExpense
  ∧ (update_balance_sheet now weekAgo rs).monthlyBalance =
      (update_balance_sheet now weekAgo rs).monthlyIncome -
        (update_balance_sheet now weekAgo rs).monthlyExpense
  ∧ (update_balance_sheet now weekAgo rs).yearlyBalance =
      (update_balance_sheet now weekAgo rs).yearlyIncome -
        (update_balance_sheet now weekAgo rs).yearlyExpense
  ∧ (update_balance_sheet now weekAgo rs).weeklyIncome =
      ((rs.filter (fun r => r.type == "доход" &&
        decide (dtNat weekAgo ≤ dtNat (recDT r)))).map (fun r => r.amount)).sum
  ∧ (update_balance_sheet now weekAgo rs).weeklyExpense =
      ((rs.filter (fun r => r.type == "расход" &&
        decide (dtNat weekAgo ≤ dtNat (recDT r)))).map (fun r => r.amount)).sum
  ∧ (update_balance_sheet now weekAgo rs).monthlyIncome =
      ((rs.filter (fun r => r.type == "доход" && (recDT r).year == now.year &&
        (recDT r).month == now.month)).map (fun r => r.amount)).sum
  ∧ (update_balance_sheet now weekAgo rs).monthlyExpense =
      ((rs.filter (fun r => r.type == "расход" && (recDT r).year == now.year &&
        (recDT r).month == now.month)).map (fun r => r.amount)).sum
  ∧ (update_balance_sheet now weekAgo rs).yearlyIncome =
      ((rs.filter (fun r => r.type == "доход" &&
        (recDT r).year == now.year)).map (fun r => r.amount)).sum
  ∧ (update_balance_sheet now weekAgo rs).yearlyExpense =
      ((rs.filter (fun r => r.type == "расход" &&
        (recDT r).year == now.year)).map (fun r => r.amount)).sum := by
  intro rs now weekAgo
  refine ⟨?_, rfl, rfl, rfl, rfl, pySum_eq_sum _, pySum_eq_sum _,
    pySum_eq_sum _, pySum_eq_sum _, pySum_eq_sum _, pySum_eq_sum _⟩
  unfold get_current_balance
  rw [pySum_eq_sum, pySum_eq_sum]

/-- C8.  The monthly scheduler's next-fire-time computation: invoked on
the 1st of a month before 10:00 it targets the same day at 10:00;
otherwise it targets the 1st of the following month at 10:00, rolling
the year over after December; in particular the two scenario instants
from the specification map as stated. -/
theorem c8_monthly_next_fire :
    (∀ now : DateTime,
      (now.day = 1 → now.hour < 10 →
        monthly_next_target now = ⟨now.year, now.month, 1, 10, 0, 0⟩)
    ∧ (¬(now.day = 1 ∧ now.hour < 10) →
        (now.month = 12 →
          monthly_next_target now = ⟨now.year + 1, 1, 1, 10, 0, 0⟩)
      ∧ (now.month ≠ 12 →
          monthly_next_target now = ⟨now.year, now.month + 1, 1, 10, 0, 0⟩)))
  ∧ monthly_next_target ⟨2024, 3, 1, 9, 0, 0⟩ = ⟨2024, 3, 1, 10, 0, 0⟩
  ∧ monthly_next_target ⟨2024, 3, 1, 11, 0, 0⟩ = ⟨2024, 4, 1, 10, 0, 0⟩ := by
  refine ⟨?_, by decide, by decide⟩
  intro now
  constructor
  · intro hd hh
    simp [monthly_next_target, hd, hh]
  · intro hnot
    constructor
    · intro h12
      simp [monthly_next_target, hnot, h12]
    · intro h12
      simp [monthly_next_target, hnot, h12]

/-- C8, witness: the general branches applied at concrete instants — the
1st of May before 10:00 targets the same day, and a mid-December instant
rolls over to January 1st of the next year. -/
theorem c8_monthly_next_fire_witness :
    monthly_next_target ⟨2024, 5, 1, 7, 0, 0⟩ = ⟨2024, 5, 1, 10, 0, 0⟩
  ∧ monthly_next_target ⟨2024, 12, 15, 12, 0, 0⟩ = ⟨2025, 1, 1, 10, 0, 0⟩ :=
  ⟨(c8_monthly_next_fire.1 ⟨2024, 5, 1, 7, 0, 0⟩).1 rfl (by decide),
   ((c8_monthly_next_fire.1 ⟨2024, 12, 15, 12, 0, 0⟩).2 (by decide)).1 rfl⟩

/-- C2, counterexample.  The claim states that a failed amount parse
deletes the user's pending input (transition back to Idle).  In the
code, the parse-failure branch returns before reaching
`del pending_inputs[user_id]`, so the pending input survives: from
`CategoryChosen(расход, Жилье)` the message `abc` draws the format-error
reply and creates no entry, but the pending state is still present. -/
theorem c2_parse_failure_keeps_pending :
    (process_manual_input ("2024-01-01 12:00:00") ⟨"расход", "Жилье"⟩ []
      emptySheets true ("abc")).reply = Reply.badFormat
  ∧ (process_manual_input ("2024-01-01 12:00:00") ⟨"расход", "Жилье"⟩ []
      emptySheets true ("abc")).created = none
  ∧ (process_manual_input ("2024-01-01 12:00:00") ⟨"расход", "Жилье"⟩ []
      emptySheets true ("abc")).records = []
  ∧ (process_manual_input ("2024-01-01 12:00:00") ⟨"расход", "Жилье"⟩ []
      emptySheets true ("abc")).pending = some ⟨"расход", "Жилье"⟩
  ∧ (process_manual_input ("2024-01-01 12:00:00") ⟨"расход", "Жилье"⟩ []
      emptySheets true ("abc")).pending ≠ none := by
  decide

/-- C2, amended.  From state `CategoryChosen(kind, category)`, a text
message whose first whitespace-delimited token fails the decimal parse
draws the format-error reply, creates no Entry and leaves the record
collection and sheet store unmodified — but the pending input is
retained (the user stays in `CategoryChosen` and may retry); the
pending input is deleted only on the two post-parse paths (saved or
duplicate). -/
theorem c2_parse_failure_aborts_entry :
    ∀ (nowStr : String) (p : Pending) (rs : List Record) (S : Sheets)
      (ok : Bool) (text : String) (tok : String) (rest : List String),
    pySplitMax1 (pyStrip text) = tok :: rest →
    parseFloat tok = none →
    process_manual_input nowStr p rs S ok text =
      ⟨Reply.badFormat, some p, rs, S, none⟩ := by
  intro nowStr p rs S ok text tok rest hsplit hparse
  simp only [process_manual_input, hsplit, hparse]

/-- C2, witness: the amended behaviour at a concrete input. -/
theorem c2_parse_failure_witness :
    pySplitMax1 (pyStrip ("abc def")) = "abc" :: ["def"]
  ∧ parseFloat ("abc") = none
  ∧ process_manual_input ("2024-01-01 12:00:00") ⟨"доход", "Бизнес"⟩ []
      emptySheets true ("abc def") =
      ⟨Reply.badFormat, some ⟨"доход", "Бизнес"⟩, [], emptySheets, none⟩ :=
  ⟨by decide, by decide,
   c2_parse_failure_aborts_entry ("2024-01-01 12:00:00") ⟨"доход", "Бизнес"⟩
     [] emptySheets true ("abc def") ("abc") ["def"] (by decide) (by decide)⟩

/-- C5, counterexample.  The claim states the round-trip for every
entry successfully appended through `save_record`.  A zero-amount entry
is appendable (the user sends `0`, `float` parses it, the row is
written and `save_record` returns `True`), yet the refresh's falsy
check `not row.get("amount")` skips the row `0`, so the reload returns
no record at all: the appended entry is not recovered, let alone with
identical fields. -/
theorem c5_zero_amount_roundtrip_fails :
    (save_record true [] emptySheets
      ⟨"2024-01-01 12:00:00", "доход", "Бизнес", 0, ""⟩).1 = true
  ∧ load_records ((save_record true [] emptySheets
      ⟨"2024-01-01 12:00:00", "доход", "Бизнес", 0, ""⟩).2.2) = []
  ∧ ¬((⟨"2024-01-01 12:00:00", "доход", "Бизнес", 0, ""⟩ : Record) ∈
      load_records ((save_record true [] emptySheets
        ⟨"2024-01-01 12:00:00", "доход", "Бизнес", 0, ""⟩).2.2)) := by
  decide

/-- C5, amended.  Round-trip for the recoverable entries: an entry with
a canonically formatted valid timestamp, a NON-ZERO amount and one of
the two transaction kinds that is successfully appended through
`save_record` (with the sheet store modelled as returning exactly the
appended rows) is recovered by the next `load_records` with identical
`(timestamp, kind, category, amount, comment)` and hence an identical
identity hash; an appended zero-amount entry is instead dropped by the
refresh's falsy-amount skip and is not recovered at all. -/
theorem c5_roundtrip :
    ∀ (S : Sheets) (rs : List Record) (e : Record) (dt : DateTime),
    validDT dt → e.date = dateStr dt → e.amount ≠ 0 →
    (e.type = "доход" ∨ e.type = "расход") →
    (save_record true rs S e).1 = true →
    ∃ r ∈ load_records (save_record true rs S e).2.2,
      r.date = e.date ∧ r.type = e.type ∧ r.category = e.category ∧
      r.amount = e.amount ∧ r.comment = e.comment ∧
      get_record_id r = get_record_id e := by
  intro S rs e dt hv hdate hamt hty hsucc
  by_cases hany : rs.any (fun x => get_record_id x == get_record_id e) = true
  · unfold save_record at hsucc
    rw [if_pos hany] at hsucc
    simp at hsucc
  · have hS' : (save_record true rs S e).2.2 = save_record_to_sheet true S e := by
      unfold save_record
      rw [if_neg hany]
    rw [hS']
    have hnodate : ¬((⟨e.date, e.category, e.amount, e.comment⟩ : SheetRow).date = ""
        ∨ (⟨e.date, e.category, e.amount, e.comment⟩ : SheetRow).amount = 0) := by
      rintro (hd | ha)
      · exact dateStr_ne_empty dt (hdate ▸ hd)
      · exact hamt ha
    rcases hty with ht | ht
    · have hsheet : save_record_to_sheet true S e =
          { S with income := S.income ++ [⟨e.date, e.category, e.amount, e.comment⟩] } := by
        unfold save_record_to_sheet
        rw [if_pos rfl, if_pos ht]
      rw [hsheet]
      have hparse : rowToRecord ("доход") ⟨e.date, e.category, e.amount, e.comment⟩ =
          some ⟨e.date, "доход", e.category, e.amount, e.comment⟩ := by
        unfold rowToRecord
        rw [if_neg hnodate]
        have : parseDT (⟨e.date, e.category, e.amount, e.comment⟩ : SheetRow).date =
            some dt := by
          show parseDT e.date = some dt
          rw [hdate]
          exact parseDT_dateStr hv
        rw [this]
      refine ⟨⟨e.date, "доход", e.category, e.amount, e.comment⟩, ?_,
        rfl, ht.symm, rfl, rfl, rfl, ?_⟩
      · unfold load_records
        rw [mem_sortRecords, List.mem_append]
        left
        rw [List.mem_filterMap]
        exact ⟨⟨e.date, e.category, e.amount, e.comment⟩,
          List.mem_append_right _ (List.mem_singleton.mpr rfl), hparse⟩
      · unfold get_record_id
        rw [ht]
    · have hsheet : save_record_to_sheet true S e =
          { S with expense := S.expense ++ [⟨e.date, e.category, e.amount, e.comment⟩] } := by
        unfold save_record_to_sheet
        rw [if_pos rfl]
        rw [if_neg (by rw [ht]; decide)]
      rw [hsheet]
      have hparse : rowToRecord ("расход") ⟨e.date, e.category, e.amount, e.comment⟩ =
          some ⟨e.date, "расход", e.category, e.amount, e.comment⟩ := by
        unfold rowToRecord
        rw [if_neg hnodate]
        have : parseDT (⟨e.date, e.category, e.amount, e.comment⟩ : SheetRow).date =
            some dt := by
          show parseDT e.date = some dt
          rw [hdate]
          exact parseDT_dateStr hv
        rw [this]
      refine ⟨⟨e.date, "расход", e.category, e.amount, e.comment⟩, ?_,
        rfl, ht.symm, rfl, rfl, rfl, ?_⟩
      · unfold load_records
        rw [mem_sortRecords, List.mem_append]
        right
        rw [List.mem_filterMap]
        exact ⟨⟨e.date, e.category, e.amount, e.comment⟩,
          List.mem_append_right _ (List.mem_singleton.mpr rfl), hparse⟩
      · unfold get_record_id
        rw [ht]

/-- C5, witness: the round-trip at a concrete appended entry — the
appended record itself is recovered by the reload. -/
theorem c5_roundtrip_witness :
    (⟨"2024-01-01 12:00:00", "доход", "Бизнес", 5, "w"⟩ : Record) ∈
      load_records (save_record true [] emptySheets
        ⟨"2024-01-01 12:00:00", "доход", "Бизнес", 5, "w"⟩).2.2 := by
  obtain ⟨r, hmem, h1, h2, h3, h4, h5, -⟩ :=
    c5_roundtrip emptySheets []
      ⟨"2024-01-01 12:00:00", "доход", "Бизнес", 5, "w"⟩
      ⟨2024, 1, 1, 12, 0, 0⟩ (by decide) (by decide) (by decide) (Or.inl rfl)
      (by decide)
  have hr : r = ⟨"2024-01-01 12:00:00", "доход", "Бизнес", 5, "w"⟩ := by
    obtain ⟨d, t, c, a, m⟩ := r
    simp only [Record.mk.injEq]
    exact ⟨h1, h2, h3, h4, h5⟩
  rw [hr] at hmem
  exact hmem

/-- C7.  The per-category breakdown behind `generate_chart`: the
category axis is exactly the set of categories observed in the filtered
records (across both kinds), sorted lexicographically without
duplicates; the chart's two value lists are the per-category sums by
kind, taken over that axis; a category with no activity in one kind
carries the value `0` on that side. -/
theorem c7_chart_by_category : ∀ rs : List Record,
    (∀ c, c ∈ (generate_chart rs).1 ↔ ∃ r ∈ rs, r.category = c)
  ∧ List.Sorted (fun a b : String => a ≤ b) (generate_chart rs).1
  ∧ (generate_chart rs).1.Nodup
  ∧ (generate_chart rs).2.1 = (generate_chart rs).1.map (chartMaps rs).1
  ∧ (generate_chart rs).2.2 = (generate_chart rs).1.map (chartMaps rs).2
  ∧ (∀ c, (chartMaps rs).1 c =
      pySum ((rs.filter (fun r => r.type == "доход" && r.category == c)).map
        (fun r => r.amount)))
  ∧ (∀ c, (chartMaps rs).2 c =
      pySum ((rs.filter (fun r => r.type == "расход" && r.category == c)).map
        (fun r => r.amount)))
  ∧ (∀ c, (∀ r ∈ rs, ¬(r.type = "доход" ∧ r.category = c)) →
      (chartMaps rs).1 c = 0)
  ∧ (∀ c, (∀ r ∈ rs, ¬(r.type = "расход" ∧ r.category = c)) →
      (chartMaps rs).2 c = 0) := by
  intro rs
  have hmaps1 : ∀ c, (chartMaps rs).1 c =
      pySum ((rs.filter (fun r => r.type == "доход" && r.category == c)).map
        (fun r => r.amount)) := by
    intro c
    have h := (chartMaps_fold_spec rs (fun _ => 0) (fun _ => 0) c).1
    simpa using h
  have hmaps2 : ∀ c, (chartMaps rs).2 c =
      pySum ((rs.filter (fun r => r.type == "расход" && r.category == c)).map
        (fun r => r.amount)) := by
    intro c
    have h := (chartMaps_fold_spec rs (fun _ => 0) (fun _ => 0) c).2
    simpa using h
  haveI : IsTotal String (fun a b : String => a ≤ b) := ⟨fun a b => le_total a b⟩
  haveI : IsTrans String (fun a b : String => a ≤ b) :=
    ⟨fun _ _ _ h1 h2 => le_trans h1 h2⟩
  refine ⟨?_, ?_, ?_, rfl, rfl, hmaps1, hmaps2, ?_, ?_⟩
  · intro c
    show c ∈ chartCategories rs ↔ _
    unfold chartCategories
    rw [List.mem_insertionSort, List.mem_dedup, List.mem_map]
  · exact List.sorted_insertionSort _ _
  · exact (List.perm_insertionSort _ _).nodup_iff.mpr (List.nodup_dedup _)
  · intro c h
    rw [hmaps1 c]
    have hfil : rs.filter (fun r => r.type == "доход" && r.category == c) = [] := by
      rw [List.filter_eq_nil_iff]
      intro r hr
      simp only [Bool.and_eq_true, beq_iff_eq, not_and]
      intro h1 h2
      exact h r hr ⟨h1, h2⟩
    rw [hfil]
    rfl
  · intro c h
    rw [hmaps2 c]
    have hfil : rs.filter (fun r => r.type == "расход" && r.category == c) = [] := by
      rw [List.filter_eq_nil_iff]
      intro r hr
      simp only [Bool.and_eq_true, beq_iff_eq, not_and]
      intro h1 h2
      exact h r hr ⟨h1, h2⟩
    rw [hfil]
    rfl

/-- C7, witness: on a one-income-record collection the category appears
on the axis and its expense-side value is `0`. -/
theorem c7_chart_witness :
    ("Бизнес" ∈ (generate_chart
      [⟨"2024-01-01 09:00:00", "доход", "Бизнес", 5, ""⟩]).1)
  ∧ (chartMaps [⟨"2024-01-01 09:00:00", "доход", "Бизнес", 5, ""⟩]).2
      ("Бизнес") = 0 := by
  obtain ⟨h1, h2, h3, h4, h5, h6, h7, h8, h9⟩ :=
    c7_chart_by_category [⟨"2024-01-01 09:00:00", "доход", "Бизнес", 5, ""⟩]
  refine ⟨(h1 ("Бизнес")).mpr ?_, h9 ("Бизнес") (by decide)⟩
  exact ⟨⟨"2024-01-01 09:00:00", "доход", "Бизнес", 5, ""⟩, by decide, rfl⟩

/-- C6.  The Day window filter of `generate_daily_summary` keeps exactly
the records whose timestamp falls within the current calendar day
(boundary-inclusive: an entry at `00:00:00` of the day has the same
calendar day and is kept); and on the specification's two-entry scenario
evaluated at `2024-01-01 23:59:59` the summary itemises both entries
individually and totals to income `1000`, expense `300`, balance `+700`. -/
theorem c6_day_window :
    (∀ (now : DateTime) (es : List Entry), validDT now →
      (∀ e ∈ es, validDT e.dt) →
      dailyFilter now (es.map mkRecord) =
        (es.filter (fun e => sameDay e.dt now)).map mkRecord)
  ∧ (generate_daily_summary ⟨2024, 1, 1, 23, 59, 59⟩
      [⟨"2024-01-01 09:00:00", "доход", "Бизнес", 1000, ""⟩,
       ⟨"2024-01-01 18:00:00", "расход", "Продукты", 300, "groceries"⟩]).incomes =
      [⟨"2024-01-01 09:00:00", "доход", "Бизнес", 1000, ""⟩]
  ∧ (generate_daily_summary ⟨2024, 1, 1, 23, 59, 59⟩
      [⟨"2024-01-01 09:00:00", "доход", "Бизнес", 1000, ""⟩,
       ⟨"2024-01-01 18:00:00", "расход", "Продукты", 300, "groceries"⟩]).expenses =
      [⟨"2024-01-01 18:00:00", "расход", "Продукты", 300, "groceries"⟩]
  ∧ (generate_daily_summary ⟨2024, 1, 1, 23, 59, 59⟩
      [⟨"2024-01-01 09:00:00", "доход", "Бизнес", 1000, ""⟩,
       ⟨"2024-01-01 18:00:00", "расход", "Продукты", 300, "groceries"⟩]).totalIncome =
      1000
  ∧ (generate_daily_summary ⟨2024, 1, 1, 23, 59, 59⟩
      [⟨"2024-01-01 09:00:00", "доход", "Бизнес", 1000, ""⟩,
       ⟨"2024-01-01 18:00:00", "расход", "Продукты", 300, "groceries"⟩]).totalExpense =
      300
  ∧ (generate_daily_summary ⟨2024, 1, 1, 23, 59, 59⟩
      [⟨"2024-01-01 09:00:00", "доход", "Бизнес", 1000, ""⟩,
       ⟨"2024-01-01 18:00:00", "расход", "Продукты", 300, "groceries"⟩]).balanceDay =
      700 := by
  refine ⟨?_, by decide, by decide, ?_, ?_, ?_⟩
  · intro now es hnow
    induction es with
    | nil => intro _; rfl
    | cons e es ih =>
      intro hes
      have ih' := ih (fun x hx => hes x (List.mem_cons_of_mem e hx))
      have hbe := validDT_bounds (hes e (List.mem_cons_self e es))
      have hbn := validDT_bounds hnow
      have hcond : pyStartsWith (mkRecord e).date (dayStr now) = sameDay e.dt now := by
        show pyStartsWith (dateStr e.dt) (dayStr now) = sameDay e.dt now
        have hiff := pyStartsWith_day e.dt now hbe.1 hbe.2.1 hbe.2.2
          hbn.1 hbn.2.1 hbn.2.2
        have hsd : sameDay e.dt now = true ↔
            (e.dt.year = now.year ∧ e.dt.month = now.month ∧
             e.dt.day = now.day) := by
          simp [sameDay, Bool.and_eq_true, beq_iff_eq, and_assoc]
        cases hval : sameDay e.dt now with
        | true => exact hiff.mpr (hsd.mp hval)
        | false =>
          rw [Bool.eq_false_iff]
          intro hT
          have h3 := hsd.mpr (hiff.mp hT)
          rw [hval] at h3
          exact Bool.false_ne_true h3
      simp only [dailyFilter] at ih' ⊢
      simp only [List.map_cons, List.filter_cons]
      rw [hcond]
      cases hval : sameDay e.dt now with
      | true => simp [ih']
      | false => simp [ih']
  · show pySum [(1000 : ℚ)] = 1000
    rw [pySum_cons]
    norm_num [pySum]
  · show pySum [(300 : ℚ)] = 300
    rw [pySum_cons]
    norm_num [pySum]
  · show pySum [(1000 : ℚ)] - pySum [(300 : ℚ)] = 700
    rw [pySum_cons, pySum_cons]
    norm_num [pySum]

/-- C6, witness: the general filter equality at a concrete collection
holding one entry at the `00:00:00` boundary of the current day (kept)
and one entry from the previous day (excluded). -/
theorem c6_day_window_witness :
    dailyFilter ⟨2024, 1, 2, 10, 0, 0⟩
      ([⟨⟨2024, 1, 2, 0, 0, 0⟩, "доход", "Бизнес", 1, ""⟩,
        ⟨⟨2024, 1, 1, 23, 59, 59⟩, "расход", "Продукты", 2, ""⟩].map mkRecord) =
      ([⟨⟨2024, 1, 2, 0, 0, 0⟩, "доход", "Бизнес", 1, ""⟩,
        ⟨⟨2024, 1, 1, 23, 59, 59⟩, "расход", "Продукты", 2, ""⟩].filter
        (fun e => sameDay e.dt ⟨2024, 1, 2, 10, 0, 0⟩)).map mkRecord :=
  c6_day_window.1 ⟨2024, 1, 2, 10, 0, 0⟩
    [⟨⟨2024, 1, 2, 0, 0, 0⟩, "доход", "Бизнес", 1, ""⟩,
     ⟨⟨2024, 1, 1, 23, 59, 59⟩, "расход", "Продукты", 2, ""⟩]
    (by decide) (by decide)
